import Mathlib

/-!
Verification of the PostureCorrection core components against their
specification.  The Python sources are shallowly embedded:

* float arithmetic that only uses field operations and comparisons is
  modelled over `ℚ` (exact, decidable);
* the transcendental geometry (`arccos`, `exp`) is modelled over `ℝ`;
* Python dicts (which preserve insertion order) are modelled as
  association lists `List (String × _)` whose keys are assumed distinct
  where a theorem needs it;
* exceptions are modelled with `Except` / explicit success flags;
* the two-thread first-access race in the dependency container is
  modelled as an explicit interleaving semantics.
-/

namespace PostureCorrection

/-- Python dict from angle names to optional angle values
(`Dict[str, Optional[float]]`), with insertion order. -/
abbrev AngleMap (α : Type) := List (String × Option α)

/-- `d.get(name)`: value stored under a key, `none` when the key is absent
(indistinguishable, as in the source, from a stored `None`). -/
def dict_get {α : Type} (m : AngleMap α) (name : String) : Option α :=
  (m.lookup name).join

/-- `d[k] = v` on a Python dict: overwrite in place when the key exists,
append at the end otherwise (Python dicts preserve insertion order). -/
def dictInsert {β : Type} (m : List (String × β)) (k : String) (v : β) :
    List (String × β) :=
  match m with
  | [] => [(k, v)]
  | (k', v') :: tl => if k = k' then (k, v) :: tl else (k', v') :: dictInsert tl k v

/-- `DefaultAnalyzer.compare_angles`: `threshold=None` falls back to the
analyzer's own `_angle_threshold`. -/
def resolve_threshold (self_threshold : ℚ) (threshold : Option ℚ) : ℚ :=
  threshold.getD self_threshold

/-- `DefaultAnalyzer.compare_angles(angle1, angle2, threshold)`.
Any absent input gives `(True, 0.0)`; otherwise
`(|angle1 - angle2| <= threshold, |angle1 - angle2|)`. -/
def compare_angles (self_threshold : ℚ) (angle1 angle2 : Option ℚ)
    (threshold : Option ℚ) : Bool × ℚ :=
  let t := resolve_threshold self_threshold threshold
  match angle1, angle2 with
  | some a1, some a2 =>
      let diff := |a1 - a2|
      (decide (diff ≤ t), diff)
  | _, _ => (true, 0)

/-- `LIMB_TO_ANGLES` from `src/constants.py`. -/
def LIMB_TO_ANGLES : List (String × List String) :=
  [("左大臂", ["左肩角度", "左肘角度"]),
   ("左小臂", ["左肘角度"]),
   ("右大臂", ["右肩角度", "右肘角度"]),
   ("右小臂", ["右肘角度"]),
   ("左大腿", ["左髋角度", "左膝角度"]),
   ("左小腿", ["左膝角度"]),
   ("右大腿", ["右髋角度", "右膝角度"]),
   ("右小腿", ["右膝角度"]),
   ("左侧躯干", ["左肩角度", "左髋角度"]),
   ("右侧躯干", ["右肩角度", "右髋角度"]),
   ("躯干上", []),
   ("躯干下", [])]

/-- The per-angle verdict map of `DefaultAnalyzer.compare_poses`:
for every name listed in the reference's angle dict, compare the
reference value against the candidate's. -/
def angle_matches_of (self_threshold : ℚ) (pose1 pose2 : AngleMap ℚ)
    (threshold : Option ℚ) : List (String × Bool) :=
  pose1.map (fun p =>
    (p.1, (compare_angles self_threshold p.2 (dict_get pose2 p.1) threshold).1))

/-- `DefaultAnalyzer.compare_poses(pose1, pose2, threshold)`:
per-limb verdicts from `LIMB_TO_ANGLES` and the overall match ratio.
`pose1` is the reference the loop iterates over. -/
def compare_poses (self_threshold : ℚ) (pose1 pose2 : AngleMap ℚ)
    (threshold : Option ℚ) : List (String × Bool) × ℚ :=
  let t := resolve_threshold self_threshold threshold
  let angle_matches := angle_matches_of self_threshold pose1 pose2 (some t)
  let limb_matches : List (String × Bool) :=
    LIMB_TO_ANGLES.map (fun la =>
      (la.1,
       if la.2.isEmpty then true
       else la.2.all (fun an => ((angle_matches.lookup an).getD true))))
  let valid_angles : List Bool :=
    (angle_matches.filter (fun p => (dict_get pose1 p.1).isSome)).map Prod.snd
  let match_ratio : ℚ :=
    if valid_angles.isEmpty then 0
    else ((valid_angles.count true : ℕ) : ℚ) / ((valid_angles.length : ℕ) : ℚ)
  (limb_matches, match_ratio)

/-- C2: compare_angles returns (true, 0.0) whenever either angle is absent;
on two present angles it returns (diff <= threshold, diff) with
diff = |a - b| and an inclusive boundary, both for an explicit threshold and
for the default one; in particular compare_angles(100, 115, 15) = (true, 15). -/
theorem compare_angles_spec (st a b t : ℚ) (oa ob ot : Option ℚ) :
    compare_angles st none ob ot = (true, 0) ∧
    compare_angles st oa none ot = (true, 0) ∧
    compare_angles st (some a) (some b) (some t) = (decide (|a - b| ≤ t), |a - b|) ∧
    compare_angles st (some a) (some b) none = (decide (|a - b| ≤ st), |a - b|) ∧
    compare_angles st (some 100) (some 115) (some 15) = (true, 15) := by
  refine ⟨?_, ?_, rfl, rfl, ?_⟩
  · cases ob <;> rfl
  · cases oa <;> rfl
  · norm_num [compare_angles, resolve_threshold]

/-- Looking up the key of a member of an association list with pairwise
distinct keys yields that member's own value. -/
theorem lookup_eq_of_mem_of_nodup {β : Type} {l : List (String × β)} (p : String × β)
    (hn : (l.map Prod.fst).Nodup) (hp : p ∈ l) : l.lookup p.1 = some p.2 := by
  induction l with
  | nil => cases hp
  | cons hd tl ih =>
    obtain ⟨k, v⟩ := hd
    rw [List.map_cons, List.nodup_cons] at hn
    rcases List.mem_cons.mp hp with h | h
    · subst h
      simp [List.lookup]
    · have hmem : p.1 ∈ List.map Prod.fst tl := List.mem_map_of_mem Prod.fst h
      have hne : p.1 ≠ k := fun he => hn.1 (he ▸ hmem)
      have hbeq : (p.1 == k) = false := beq_eq_false_iff_ne.mpr hne
      simp [List.lookup, hbeq, ih hn.2 h]

/-- Lookup in a key-preserving image of an association list with distinct
keys picks out the image of the member. -/
theorem lookup_map_eq_of_mem_of_nodup {β γ : Type} (f : String × β → γ)
    {l : List (String × β)} (p : String × β)
    (hn : (l.map Prod.fst).Nodup) (hp : p ∈ l) :
    (l.map (fun q => (q.1, f q))).lookup p.1 = some (f p) := by
  have hk : ((l.map (fun q => (q.1, f q))).map Prod.fst) = l.map Prod.fst := by
    simp [List.map_map, Function.comp]
  have hn2 : ((l.map (fun q => (q.1, f q))).map Prod.fst).Nodup := by
    rw [hk]; exact hn
  have hp2 : (p.1, f p) ∈ l.map (fun q => (q.1, f q)) := List.mem_map_of_mem _ hp
  exact lookup_eq_of_mem_of_nodup (p.1, f p) hn2 hp2

/-- On a dict with distinct keys, `d.get(k)` of a stored key gives the
stored value. -/
theorem dict_get_eq_of_mem_of_nodup {α : Type} {l : AngleMap α} (p : String × Option α)
    (hn : (l.map Prod.fst).Nodup) (hp : p ∈ l) : dict_get l p.1 = p.2 := by
  unfold dict_get
  rw [lookup_eq_of_mem_of_nodup p hn hp]
  rfl

/-- The `valid_angles` filter of `compare_poses`: filtering the per-angle
verdict map by presence in the reference equals mapping the verdict
function over the present entries of the reference. -/
theorem filter_map_get_eq {α : Type} (g : String × Option α → Bool) (pose1 : AngleMap α)
    (l : List (String × Option α)) (hall : ∀ p ∈ l, dict_get pose1 p.1 = p.2) :
    ((l.map (fun p => (p.1, g p))).filter
        (fun q => (dict_get pose1 q.1).isSome)).map Prod.snd
      = (l.filter (fun p => p.2.isSome)).map g := by
  induction l with
  | nil => rfl
  | cons hd tl ih =>
    have hd_eq : dict_get pose1 hd.1 = hd.2 := hall hd (List.mem_cons_self hd tl)
    have htl : ∀ p ∈ tl, dict_get pose1 p.1 = p.2 :=
      fun p hp => hall p (List.mem_cons_of_mem hd hp)
    by_cases h2 : hd.2.isSome = true
    · simp [List.filter_cons, hd_eq, h2, ih htl]
    · simp [List.filter_cons, hd_eq, h2, ih htl]

/-- Counting `true` in the image of a boolean-valued function is counting
the satisfying elements. -/
theorem count_true_map {α : Type} (g : α → Bool) (l : List α) :
    (l.map g).count true = l.countP g := by
  induction l with
  | nil => rfl
  | cons a tl ih =>
    cases h : g a <;> simp [List.count_cons, List.countP_cons, h, ih]

/-- C1: the overall ratio of compare_poses is the number of matched angles
among the angle names whose reference value is present, divided by the
number of angle names whose reference value is present; names whose
reference value is absent are excluded from numerator and denominator, and
a reference with no present angle values gives ratio 0.0. -/
theorem compare_poses_ratio_spec (st : ℚ) (pose1 pose2 : AngleMap ℚ) (ot : Option ℚ)
    (hn : (pose1.map Prod.fst).Nodup) :
    (compare_poses st pose1 pose2 ot).2 =
      if pose1.filter (fun p => p.2.isSome) = [] then 0
      else (((pose1.filter (fun p => p.2.isSome)).countP
              (fun p => (compare_angles st p.2 (dict_get pose2 p.1)
                          (some (resolve_threshold st ot))).1) : ℕ) : ℚ)
           / (((pose1.filter (fun p => p.2.isSome)).length : ℕ) : ℚ) := by
  have hall : ∀ p ∈ pose1, dict_get pose1 p.1 = p.2 :=
    fun p hp => dict_get_eq_of_mem_of_nodup p hn hp
  simp only [compare_poses, angle_matches_of]
  rw [filter_map_get_eq _ pose1 pose1 hall, count_true_map, List.length_map]
  simp only [List.isEmpty_iff, List.map_eq_nil_iff]

/-- Witness for C1 at a concrete pair of poses: the reference has two
present angles ("a" matched within the threshold, "c" mismatched) and one
absent angle "b", so the ratio is 1/2. -/
theorem compare_poses_ratio_spec_witness :
    (compare_poses 15 [("a", some 100), ("b", none), ("c", some 10)]
        [("a", some 110), ("c", some 50)] none).2 = 1 / 2 := by
  have h := compare_poses_ratio_spec 15
      [("a", some 100), ("b", none), ("c", some 10)]
      [("a", some 110), ("c", some 50)] none (by decide)
  rw [h]
  have ha : dict_get [("a", some (110 : ℚ)), ("c", some 50)] "a" = some 110 := rfl
  have hc : dict_get [("a", some (110 : ℚ)), ("c", some 50)] "c" = some 50 := rfl
  have hm1 : |(100 : ℚ) - 110| ≤ 15 := by rw [abs_le]; constructor <;> norm_num
  have hm2 : ¬(|(10 : ℚ) - 50| ≤ 15) := by rw [abs_le]; norm_num
  simp only [List.filter_cons, List.countP_cons, Option.isSome_some, Option.isSome_none,
    decide_True, decide_False, if_true, if_false, List.filter_nil, List.countP_nil]
  norm_num [compare_angles, resolve_threshold, ha, hc, hm1, hm2]
  simp

/-- C7: compare_poses assigns every limb of the static LIMB_TO_ANGLES table
a verdict that is true when the limb has no governing angles and otherwise
is the conjunction of its governing angles' verdicts, a missing verdict
entry defaulting to true. -/
theorem compare_poses_limb_spec (st : ℚ) (pose1 pose2 : AngleMap ℚ) (ot : Option ℚ)
    (limb : String) (angs : List String)
    (hmem : (limb, angs) ∈ LIMB_TO_ANGLES) :
    (compare_poses st pose1 pose2 ot).1.lookup limb =
      some (if angs.isEmpty then true
            else angs.all (fun an =>
              (((angle_matches_of st pose1 pose2
                   (some (resolve_threshold st ot))).lookup an).getD true))) := by
  have hn : (LIMB_TO_ANGLES.map Prod.fst).Nodup := by decide
  have h := lookup_map_eq_of_mem_of_nodup
      (fun la => if la.2.isEmpty then true
                 else la.2.all (fun an =>
                   (((angle_matches_of st pose1 pose2
                        (some (resolve_threshold st ot))).lookup an).getD true)))
      (limb, angs) hn hmem
  simpa [compare_poses] using h

/-- Witness for C7 at the limb 左小臂 (governed by 左肘角度 alone) against
empty angle maps: the governing angle has no verdict entry, so it defaults
to true and the limb verdict is true. -/
theorem compare_poses_limb_spec_witness :
    (compare_poses 15 [] [] none).1.lookup "左小臂" = some true := by
  have h := compare_poses_limb_spec 15 [] [] none "左小臂" ["左肘角度"] (by decide)
  rw [h]
  decide

/-- A detected body point, `src/models.py` Landmark. -/
structure Landmark where
  x : ℝ
  y : ℝ
  z : ℝ
  visibility : ℝ

/-- `np.clip(v, lo, hi)`. -/
noncomputable def clip (v lo hi : ℝ) : ℝ := max lo (min v hi)

/-- `np.linalg.norm` of a 2-D vector. -/
noncomputable def norm2 (vx vy : ℝ) : ℝ := Real.sqrt (vx ^ 2 + vy ^ 2)

/-- `DefaultAnalyzer.calculate_angle(p1, p2, p3)`: angle at vertex `p2`
between the 2-D rays to `p1` and `p3`, via the clamped inverse cosine of
the normalized dot product; `0.0` when either ray is shorter than `1e-6`.
`np.degrees r` is `r * 180 / pi`. -/
noncomputable def calculate_angle (p1 p2 p3 : Landmark) : ℝ :=
  let v1x := p1.x - p2.x
  let v1y := p1.y - p2.y
  let v2x := p3.x - p2.x
  let v2y := p3.y - p2.y
  let norm_v1 := norm2 v1x v1y
  let norm_v2 := norm2 v2x v2y
  if norm_v1 < 1e-6 ∨ norm_v2 < 1e-6 then 0
  else
    let dot_product := v1x * v2x + v1y * v2y
    let cos_angle := clip (dot_product / (norm_v1 * norm_v2)) (-1) 1
    Real.arccos cos_angle * 180 / Real.pi

/-- C6: calculate_angle always lands in [0, 180] degrees, and whenever
either ray from the vertex is shorter than 1e-6 it returns exactly 0.0
(the clamp makes the arccos argument legal in all other cases). -/
theorem calculate_angle_spec (p1 p2 p3 : Landmark) :
    (0 ≤ calculate_angle p1 p2 p3 ∧ calculate_angle p1 p2 p3 ≤ 180) ∧
    ((norm2 (p1.x - p2.x) (p1.y - p2.y) < 1e-6 ∨
      norm2 (p3.x - p2.x) (p3.y - p2.y) < 1e-6) →
      calculate_angle p1 p2 p3 = 0) := by
  by_cases h : norm2 (p1.x - p2.x) (p1.y - p2.y) < 1e-6 ∨
      norm2 (p3.x - p2.x) (p3.y - p2.y) < 1e-6
  · constructor
    · constructor <;> simp [calculate_angle, h]
    · intro _
      simp [calculate_angle, h]
  · obtain ⟨c0, hval⟩ : ∃ c0, calculate_angle p1 p2 p3 = Real.arccos c0 * 180 / Real.pi :=
      ⟨clip (((p1.x - p2.x) * (p3.x - p2.x) + (p1.y - p2.y) * (p3.y - p2.y))
          / (norm2 (p1.x - p2.x) (p1.y - p2.y) * norm2 (p3.x - p2.x) (p3.y - p2.y))) (-1) 1,
        by simp [calculate_angle, h]⟩
    refine ⟨⟨?_, ?_⟩, fun hh => absurd hh h⟩
    · rw [hval]
      exact div_nonneg (mul_nonneg (Real.arccos_nonneg c0) (by norm_num)) Real.pi_pos.le
    · rw [hval]
      have h2 : Real.arccos c0 * 180 ≤ Real.pi * 180 :=
        mul_le_mul_of_nonneg_right (Real.arccos_le_pi c0) (by norm_num)
      have h3 := (div_le_div_iff_of_pos_right Real.pi_pos).mpr h2
      have h4 : Real.pi * 180 / Real.pi = 180 := by field_simp
      rw [h4] at h3
      exact h3

/-- Witness for C6: with all three points equal, both rays are degenerate
and the returned angle is exactly 0.0 (also inside [0, 180]). -/
theorem calculate_angle_spec_witness :
    calculate_angle ⟨0, 0, 0, 0⟩ ⟨0, 0, 0, 0⟩ ⟨0, 0, 0, 0⟩ = 0 ∧
    0 ≤ calculate_angle ⟨0, 0, 0, 0⟩ ⟨0, 0, 0, 0⟩ ⟨0, 0, 0, 0⟩ := by
  have hdeg : norm2 ((⟨0, 0, 0, 0⟩ : Landmark).x - (⟨0, 0, 0, 0⟩ : Landmark).x)
      ((⟨0, 0, 0, 0⟩ : Landmark).y - (⟨0, 0, 0, 0⟩ : Landmark).y) < 1e-6 := by
    norm_num [norm2, Real.sqrt_zero]
  exact ⟨(calculate_angle_spec _ _ _).2 (Or.inl hdeg),
    ((calculate_angle_spec _ _ _).1).1⟩

/-- The angle names whose values are present in both snapshots, paired as
(reference value, candidate value), in reference order: the pairs the
loop of `calculate_similarity_score` actually uses. -/
def common_angles (pose1 pose2 : AngleMap ℝ) : List (ℝ × ℝ) :=
  pose1.filterMap (fun p =>
    match p.2, dict_get pose2 p.1 with
    | some a1, some a2 => some (a1, a2)
    | _, _ => none)

/-- The Gaussian kernel of `calculate_similarity_score`:
`np.exp(-(diff ** 2) / (2 * 30 ** 2))`. -/
noncomputable def gaussian_similarity (diff : ℝ) : ℝ :=
  Real.exp (-(diff ^ 2) / (2 * 30 ^ 2))

/-- `DefaultAnalyzer.calculate_similarity_score(pose1, pose2)`.  The
source accumulates `weighted_similarity` and `total_weight` (1.0 per
comparable name) in one loop; the accumulated sum over the loop equals the
sum over `common_angles` and the accumulated weight equals its length. -/
noncomputable def calculate_similarity_score (pose1 pose2 : AngleMap ℝ) : ℝ :=
  let sims := (common_angles pose1 pose2).map (fun q => gaussian_similarity |q.1 - q.2|)
  let total_weight : ℝ := sims.length
  let weighted_similarity : ℝ := sims.sum
  if 0 < total_weight then weighted_similarity / total_weight else 0

theorem gaussian_similarity_le_one (d : ℝ) : gaussian_similarity d ≤ 1 := by
  unfold gaussian_similarity
  rw [Real.exp_le_one_iff]
  apply div_nonpos_of_nonpos_of_nonneg
  · simpa using sq_nonneg d
  · norm_num

theorem gaussian_similarity_zero : gaussian_similarity 0 = 1 := by
  unfold gaussian_similarity
  norm_num

/-- C8: calculate_similarity_score is the arithmetic mean of the Gaussian
kernel of the per-angle differences over exactly the names present in both
snapshots, hence lies in [0, 1] and equals 1.0 when all common differences
are zero, and it returns 0.0 — not 1.0 — when no name is present in both. -/
theorem calculate_similarity_score_spec (pose1 pose2 : AngleMap ℝ) :
    (common_angles pose1 pose2 = [] → calculate_similarity_score pose1 pose2 = 0) ∧
    (common_angles pose1 pose2 ≠ [] →
      calculate_similarity_score pose1 pose2 =
        ((common_angles pose1 pose2).map
            (fun q => gaussian_similarity |q.1 - q.2|)).sum
          / ((common_angles pose1 pose2).length : ℝ)) ∧
    (0 ≤ calculate_similarity_score pose1 pose2 ∧
      calculate_similarity_score pose1 pose2 ≤ 1) ∧
    (common_angles pose1 pose2 ≠ [] →
      (∀ q ∈ common_angles pose1 pose2, q.1 = q.2) →
      calculate_similarity_score pose1 pose2 = 1) := by
  by_cases hc : common_angles pose1 pose2 = []
  · constructor
    · intro _
      simp [calculate_similarity_score, hc]
    · exact ⟨fun hne => absurd hc hne, by simp [calculate_similarity_score, hc],
        fun hne => absurd hc hne⟩
  · have hlenpos : 0 < ((common_angles pose1 pose2).length : ℝ) := by
      have := List.length_pos.mpr hc
      exact_mod_cast this
    have hval : calculate_similarity_score pose1 pose2 =
        ((common_angles pose1 pose2).map
            (fun q => gaussian_similarity |q.1 - q.2|)).sum
          / ((common_angles pose1 pose2).length : ℝ) := by
      simp only [calculate_similarity_score, List.length_map]
      rw [if_pos hlenpos]
    have hsum_nonneg : 0 ≤ ((common_angles pose1 pose2).map
        (fun q => gaussian_similarity |q.1 - q.2|)).sum := by
      apply List.sum_nonneg
      intro x hx
      obtain ⟨q, _, hq⟩ := List.mem_map.mp hx
      rw [← hq]
      exact (Real.exp_pos _).le
    have hsum_le : ((common_angles pose1 pose2).map
        (fun q => gaussian_similarity |q.1 - q.2|)).sum
          ≤ ((common_angles pose1 pose2).length : ℝ) := by
      have h1 : ((common_angles pose1 pose2).map
          (fun q => gaussian_similarity |q.1 - q.2|)).sum
            ≤ ((common_angles pose1 pose2).map
                (fun q => gaussian_similarity |q.1 - q.2|)).length • (1 : ℝ) :=
        List.sum_le_card_nsmul _ 1
          (by
            intro x hx
            obtain ⟨q, _, hq⟩ := List.mem_map.mp hx
            rw [← hq]
            exact gaussian_similarity_le_one _)
      simpa using h1
    refine ⟨fun he => absurd he hc, fun _ => hval, ⟨?_, ?_⟩, fun _ hall => ?_⟩
    · rw [hval]
      exact div_nonneg hsum_nonneg hlenpos.le
    · rw [hval]
      exact (div_le_one hlenpos).mpr hsum_le
    · have hones : ∀ x ∈ (common_angles pose1 pose2).map
          (fun q => gaussian_similarity |q.1 - q.2|), x = 1 := by
        intro x hx
        obtain ⟨q, hqmem, hq⟩ := List.mem_map.mp hx
        rw [← hq, hall q hqmem]
        simpa using gaussian_similarity_zero
      have hsum : ((common_angles pose1 pose2).map
          (fun q => gaussian_similarity |q.1 - q.2|)).sum
            = ((common_angles pose1 pose2).map
                (fun q => gaussian_similarity |q.1 - q.2|)).length • (1 : ℝ) :=
        List.sum_eq_card_nsmul _ 1 hones
      rw [hval, hsum]
      simp
      rw [div_self hlenpos.ne.symm]

/-- Witness for C8: two identical single-entry snapshots share one present
angle with difference zero, so the similarity score is exactly 1. -/
theorem calculate_similarity_score_spec_witness :
    calculate_similarity_score [("左肘角度", some 150)] [("左肘角度", some 150)] = 1 := by
  have hc : common_angles [("左肘角度", some 150)] [("左肘角度", some 150)]
      = [((150 : ℝ), (150 : ℝ))] := by
    simp [common_angles, dict_get, List.lookup]
  refine (calculate_similarity_score_spec _ _).2.2.2 ?_ ?_
  · rw [hc]
    simp
  · rw [hc]
    intro q hq
    rw [List.mem_singleton] at hq
    subst hq
    rfl

/-- `ComponentInfo` from `src/src/deps/registry.py`; component classes are
drawn from an opaque type α, and `cls = none` is the placeholder of a
lazily registered component. -/
structure ComponentInfo (α : Type) where
  name : String
  cls : Option α
  description : String
  category : String
  is_default : Bool
  deriving DecidableEq

/-- The observable state of `Registry`: per-category ordered dicts of
component infos, plus the class each lazy loader would return, keyed by
the "category.name" string.  A loader imports a module and returns a
class; the class it returns is recorded directly, so running the loader
is a pure lookup here. -/
structure Registry (α : Type) where
  components : List (String × List (String × ComponentInfo α))
  lazy_imports : List (String × α)
  deriving DecidableEq

/-- `Registry.get(category, name)`.  The source first resolves a lazy
placeholder (caching the loaded class in `component_info.cls`), then
returns `component_info.cls`, or `None` when the name is unknown.  The
cached class equals the loader's result, so the return value is this pure
function of the state. -/
def Registry.get {α : Type} (r : Registry α) (category name : String) : Option α :=
  match ((r.components.lookup category).getD []).lookup name with
  | none => none
  | some info =>
      match info.cls with
      | some c => some c
      | none => r.lazy_imports.lookup (category ++ "." ++ name)

/-- `Registry.get_default(category)`: the first component whose info has
`is_default`, else the first registered component, else `None`. -/
def Registry.get_default {α : Type} (r : Registry α) (category : String) : Option α :=
  match ((r.components.lookup category).getD []).find? (fun p => p.2.is_default) with
  | some p => r.get category p.2.name
  | none =>
      match (r.components.lookup category).getD [] with
      | [] => none
      | (first_name, _) :: _ => r.get category first_name

/-- `Registry.register(category, name, cls, description, is_default)`:
create the category dict if missing, then assign its `name` slot. -/
def Registry.register {α : Type} (r : Registry α) (category name : String) (cls : α)
    (description : String) (is_default : Bool) : Registry α :=
  let cat := (r.components.lookup category).getD []
  let info : ComponentInfo α :=
    { name := name, cls := some cls, description := description,
      category := category, is_default := is_default }
  { r with components := dictInsert r.components category (dictInsert cat name info) }

/-- Assigning a key of a Python dict leaves it retrievable. -/
theorem dictInsert_lookup_self {β : Type} (m : List (String × β)) (k : String) (v : β) :
    (dictInsert m k v).lookup k = some v := by
  induction m with
  | nil => simp [dictInsert, List.lookup]
  | cons hd tl ih =>
    obtain ⟨k', v'⟩ := hd
    by_cases hk : k = k'
    · subst hk
      simp [dictInsert, List.lookup]
    · have hbeq : (k == k') = false := beq_eq_false_iff_ne.mpr hk
      simp [dictInsert, hk, List.lookup, hbeq, ih]

/-- Assigning a fresh key of a Python dict appends it at the end:
insertion order is preserved. -/
theorem dictInsert_append {β : Type} (m : List (String × β)) (k : String) (v : β)
    (hk : k ∉ m.map Prod.fst) : dictInsert m k v = m ++ [(k, v)] := by
  induction m with
  | nil => rfl
  | cons hd tl ih =>
    obtain ⟨k', v'⟩ := hd
    rw [List.map_cons, List.mem_cons] at hk
    push_neg at hk
    simp [dictInsert, hk.1, ih hk.2]

/-- The first element satisfying a predicate is the head of the filtered
list. -/
theorem find?_eq_head_filter {β : Type} (p : β → Bool) (l : List β) :
    l.find? p = (l.filter p).head? := by
  induction l with
  | nil => rfl
  | cons hd tl ih =>
    by_cases h : p hd = true
    · rw [List.find?_cons_of_pos _ h, List.filter_cons_of_pos h]
      rfl
    · rw [List.find?_cons_of_neg _ h, List.filter_cons_of_neg h, ih]

/-- C3: get_default resolves the descriptor explicitly marked default when
exactly one is marked; with none marked and a non-empty category it
resolves the first-registered entry (get_default is a pure function of the
registry state, so repeated calls agree); an empty category gives absence.
Registering a fresh name appends it, so insertion order is preserved. -/
theorem get_default_spec {α : Type} (r : Registry α) (category : String) :
    (∀ e, ((r.components.lookup category).getD []).filter (fun p => p.2.is_default) = [e] →
      r.get_default category = r.get category e.2.name) ∧
    (((r.components.lookup category).getD []).filter (fun p => p.2.is_default) = [] →
      ∀ first rest, (r.components.lookup category).getD [] = first :: rest →
        r.get_default category = r.get category first.1) ∧
    ((r.components.lookup category).getD [] = [] →
      r.get_default category = none) ∧
    (∀ name cls description is_default,
      name ∉ ((r.components.lookup category).getD []).map Prod.fst →
      (((r.register category name cls description is_default).components.lookup
          category).getD [])
        = ((r.components.lookup category).getD []) ++
            [(name, ⟨name, some cls, description, category, is_default⟩)]) := by
  refine ⟨?_, ?_, ?_, ?_⟩
  · intro e hf
    unfold Registry.get_default
    rw [find?_eq_head_filter, hf]
    rfl
  · intro hf first rest hcomps
    obtain ⟨fname, finfo⟩ := first
    unfold Registry.get_default
    rw [find?_eq_head_filter, hf, hcomps]
    rfl
  · intro hcomps
    unfold Registry.get_default
    rw [find?_eq_head_filter, hcomps]
    rfl
  · intro name cls description is_default hfresh
    simp only [Registry.register]
    rw [dictInsert_lookup_self]
    simp only [Option.getD_some]
    exact dictInsert_append _ _ _ hfresh

/-- A concrete two-component registry for the C3 witness: "B" is marked
default while "A" was registered first. -/
def sampleRegistry : Registry ℕ :=
  { components :=
      [("analyzer",
        [("A", ⟨"A", some 1, "", "analyzer", false⟩),
         ("B", ⟨"B", some 2, "", "analyzer", true⟩)])],
    lazy_imports := [] }

/-- Witness for C3: in sampleRegistry exactly "B" is marked default, so
get_default resolves "B" (class 2), not the first-registered "A". -/
theorem get_default_spec_witness :
    sampleRegistry.get_default "analyzer" = some 2 := by
  have h := (get_default_spec sampleRegistry "analyzer").1
      ("B", ⟨"B", some 2, "", "analyzer", true⟩) (by decide)
  rw [h]
  decide

/-- A Python runtime value as stored in configuration fields and parsed
JSON documents: strings, numbers (modelled exactly over ℚ), booleans,
lists, tuples, dicts and None.  The source's `setattr` stores whatever
value the document supplies, so fields hold arbitrary values. -/
inductive Value where
  | vstr : String → Value
  | vnum : ℚ → Value
  | vbool : Bool → Value
  | vlist : List Value → Value
  | vtup : List Value → Value
  | vobj : List (String × Value) → Value
  | vnull : Value

/-- Whether a value is a dict (the only values whose `.items()` call in
`from_dict` does not raise). -/
def Value.isObj : Value → Bool
  | Value.vobj _ => true
  | _ => false

/-- `DetectorConfig` dataclass of `src/src/core/base_config.py`. -/
structure DetectorConfig where
  min_detection_confidence : Value
  min_tracking_confidence : Value
  model_path : Value

/-- `AnalyzerConfig` dataclass. -/
structure AnalyzerConfig where
  angle_threshold : Value

/-- `RenderConfig` dataclass. -/
structure RenderConfig where
  line_thickness_normal : Value
  line_thickness_bold : Value
  overlay_alpha : Value
  overlay_scale : Value

/-- `WindowConfig` dataclass. -/
structure WindowConfig where
  window_name : Value
  camera_width : Value
  camera_height : Value

/-- `ColorConfig` dataclass (BGR tuples). -/
structure ColorConfig where
  green : Value
  red : Value
  yellow : Value
  white : Value

/-- `hasattr` on a `DetectorConfig` instance for its dataclass fields. -/
def DetectorConfig.hasattr (k : String) : Bool :=
  k == "min_detection_confidence" || k == "min_tracking_confidence" || k == "model_path"

/-- `setattr` on a `DetectorConfig` instance. -/
def DetectorConfig.setattr (c : DetectorConfig) (k : String) (v : Value) : DetectorConfig :=
  if k == "min_detection_confidence" then { c with min_detection_confidence := v }
  else if k == "min_tracking_confidence" then { c with min_tracking_confidence := v }
  else if k == "model_path" then { c with model_path := v }
  else c

/-- `hasattr` on an `AnalyzerConfig` instance. -/
def AnalyzerConfig.hasattr (k : String) : Bool :=
  k == "angle_threshold"

/-- `setattr` on an `AnalyzerConfig` instance. -/
def AnalyzerConfig.setattr (c : AnalyzerConfig) (k : String) (v : Value) : AnalyzerConfig :=
  if k == "angle_threshold" then { c with angle_threshold := v }
  else c

/-- `hasattr` on a `RenderConfig` instance. -/
def RenderConfig.hasattr (k : String) : Bool :=
  k == "line_thickness_normal" || k == "line_thickness_bold" ||
  k == "overlay_alpha" || k == "overlay_scale"

/-- `setattr` on a `RenderConfig` instance. -/
def RenderConfig.setattr (c : RenderConfig) (k : String) (v : Value) : RenderConfig :=
  if k == "line_thickness_normal" then { c with line_thickness_normal := v }
  else if k == "line_thickness_bold" then { c with line_thickness_bold := v }
  else if k == "overlay_alpha" then { c with overlay_alpha := v }
  else if k == "overlay_scale" then { c with overlay_scale := v }
  else c

/-- `hasattr` on a `WindowConfig` instance. -/
def WindowConfig.hasattr (k : String) : Bool :=
  k == "window_name" || k == "camera_width" || k == "camera_height"

/-- `setattr` on a `WindowConfig` instance. -/
def WindowConfig.setattr (c : WindowConfig) (k : String) (v : Value) : WindowConfig :=
  if k == "window_name" then { c with window_name := v }
  else if k == "camera_width" then { c with camera_width := v }
  else if k == "camera_height" then { c with camera_height := v }
  else c

/-- `hasattr` on a `ColorConfig` instance. -/
def ColorConfig.hasattr (k : String) : Bool :=
  k == "green" || k == "red" || k == "yellow" || k == "white"

/-- `setattr` on a `ColorConfig` instance. -/
def ColorConfig.setattr (c : ColorConfig) (k : String) (v : Value) : ColorConfig :=
  if k == "green" then { c with green := v }
  else if k == "red" then { c with red := v }
  else if k == "yellow" then { c with yellow := v }
  else if k == "white" then { c with white := v }
  else c

/-- `DefaultConfig` from `src/src/deps/default_config.py`: the five typed
sections plus the free-form custom dict. -/
structure DefaultConfig where
  detector : DetectorConfig
  analyzer : AnalyzerConfig
  render : RenderConfig
  window : WindowConfig
  colors : ColorConfig
  custom : List (String × Value)

/-- A fresh `DefaultConfig()` with every dataclass default. -/
def DefaultConfig.mkDefault : DefaultConfig :=
  { detector :=
      { min_detection_confidence := Value.vnum (1 / 2),
        min_tracking_confidence := Value.vnum (1 / 2),
        model_path := Value.vstr "pose_landmarker.task" },
    analyzer := { angle_threshold := Value.vnum 15 },
    render :=
      { line_thickness_normal := Value.vnum 2,
        line_thickness_bold := Value.vnum 4,
        overlay_alpha := Value.vnum (2 / 5),
        overlay_scale := Value.vnum (3 / 10) },
    window :=
      { window_name := Value.vstr "Pose Comparison System",
        camera_width := Value.vnum 1280,
        camera_height := Value.vnum 720 },
    colors :=
      { green := Value.vtup [Value.vnum 0, Value.vnum 255, Value.vnum 0],
        red := Value.vtup [Value.vnum 0, Value.vnum 0, Value.vnum 255],
        yellow := Value.vtup [Value.vnum 0, Value.vnum 255, Value.vnum 255],
        white := Value.vtup [Value.vnum 255, Value.vnum 255, Value.vnum 255] },
    custom := [] }

/-- Python `key.split('.')` over the key's characters: a part ends at
every dot; a key without dots yields itself as the single part. -/
def splitDotAux : List Char → List Char → List (List Char)
  | [], acc => [acc.reverse]
  | ch :: cs, acc =>
      if ch = '.' then acc.reverse :: splitDotAux cs []
      else splitDotAux cs (ch :: acc)

/-- Python `key.split('.')`. -/
def splitDot (s : String) : List String :=
  (splitDotAux s.data []).map (fun cs => String.mk cs)

/-- `DefaultConfig.set(key, value)`.  A key without a dot goes to the
custom dict.  Otherwise the first two parts select section and attribute
(the source ignores any further parts); an unknown section (`getattr`
yielding None) or an unknown attribute of a known section makes the call
a silent no-op.  (A "custom" section resolves the `_custom` dict, which
carries no such data attributes, so it is likewise a no-op here.) -/
def DefaultConfig.set (c : DefaultConfig) (key : String) (v : Value) : DefaultConfig :=
  match splitDot key with
  | [k] => { c with custom := dictInsert c.custom k v }
  | sec :: attr :: _ =>
      if sec == "detector" then
        if DetectorConfig.hasattr attr then
          { c with detector := c.detector.setattr attr v } else c
      else if sec == "analyzer" then
        if AnalyzerConfig.hasattr attr then
          { c with analyzer := c.analyzer.setattr attr v } else c
      else if sec == "render" then
        if RenderConfig.hasattr attr then
          { c with render := c.render.setattr attr v } else c
      else if sec == "window" then
        if WindowConfig.hasattr attr then
          { c with window := c.window.setattr attr v } else c
      else if sec == "colors" then
        if ColorConfig.hasattr attr then
          { c with colors := c.colors.setattr attr v } else c
      else c
  | [] => c

/-- `hasattr` dispatched on the section name, false for unknown sections. -/
def sectionHasattr (sec attr : String) : Bool :=
  if sec == "detector" then DetectorConfig.hasattr attr
  else if sec == "analyzer" then AnalyzerConfig.hasattr attr
  else if sec == "render" then RenderConfig.hasattr attr
  else if sec == "window" then WindowConfig.hasattr attr
  else if sec == "colors" then ColorConfig.hasattr attr
  else false

/-- C10: set on a dotted key whose section is known but whose field is not
an attribute of that section returns without raising and leaves the whole
configuration unchanged; a key without a dot is always written into the
custom dict. -/
theorem config_set_spec (c : DefaultConfig) (key sec attr : String) (v : Value) :
    (splitDot key = [sec, attr] →
      sec ∈ (["detector", "analyzer", "render", "window", "colors"] : List String) →
      sectionHasattr sec attr = false →
      c.set key v = c) ∧
    (splitDot key = [key] →
      c.set key v = { c with custom := dictInsert c.custom key v }) := by
  constructor
  · intro hsplit hsec hattr
    fin_cases hsec <;>
      (unfold DefaultConfig.set
       rw [hsplit]
       simp [sectionHasattr] at hattr
       simp [hattr])
  · intro hsplit
    unfold DefaultConfig.set
    rw [hsplit]

/-- Witness for C10: "analyzer.nope" names the analyzer section but no
field of it, so set is a no-op; "shortcut" has no dot and lands in the
custom dict. -/
theorem config_set_spec_witness :
    DefaultConfig.set DefaultConfig.mkDefault "analyzer.nope" Value.vnull
        = DefaultConfig.mkDefault ∧
    DefaultConfig.set DefaultConfig.mkDefault "shortcut" Value.vnull
        = { DefaultConfig.mkDefault with
            custom := dictInsert DefaultConfig.mkDefault.custom "shortcut" Value.vnull } := by
  constructor
  · exact (config_set_spec DefaultConfig.mkDefault "analyzer.nope" "analyzer" "nope"
      Value.vnull).1 (by rfl) (by simp) (by rfl)
  · exact (config_set_spec DefaultConfig.mkDefault "shortcut" "shortcut" ""
      Value.vnull).2 (by rfl)

/-- One section loop of `DefaultConfig.from_dict` for the five fixed
sections: `data[section].items()` raises unless the value is a dict (no
other parsed-JSON value has `.items`), and it raises before any
assignment; on a dict, every listed field that the section has is
assigned (after the per-section value transform `tr`), unknown fields are
ignored.  The Bool is the no-exception flag. -/
def applySection {σ : Type} (hasattrF : String → Bool) (setattrF : σ → String → Value → σ)
    (tr : Value → Value) (s : σ) (v : Value) : σ × Bool :=
  match v with
  | Value.vobj kvs =>
      (kvs.foldl (fun acc kv =>
        if hasattrF kv.1 then setattrF acc kv.1 (tr kv.2) else acc) s, true)
  | _ => (s, false)

/-- The `detector` section application of `from_dict`. -/
def applyDetector (c : DefaultConfig) (v : Value) : DefaultConfig × Bool :=
  match applySection DetectorConfig.hasattr DetectorConfig.setattr (fun x => x)
      c.detector v with
  | (d, ok) => ({ c with detector := d }, ok)

/-- The `analyzer` section application of `from_dict`. -/
def applyAnalyzer (c : DefaultConfig) (v : Value) : DefaultConfig × Bool :=
  match applySection AnalyzerConfig.hasattr AnalyzerConfig.setattr (fun x => x)
      c.analyzer v with
  | (a, ok) => ({ c with analyzer := a }, ok)

/-- The `render` section application of `from_dict`. -/
def applyRender (c : DefaultConfig) (v : Value) : DefaultConfig × Bool :=
  match applySection RenderConfig.hasattr RenderConfig.setattr (fun x => x)
      c.render v with
  | (a, ok) => ({ c with render := a }, ok)

/-- The `window` section application of `from_dict`. -/
def applyWindow (c : DefaultConfig) (v : Value) : DefaultConfig × Bool :=
  match applySection WindowConfig.hasattr WindowConfig.setattr (fun x => x)
      c.window v with
  | (a, ok) => ({ c with window := a }, ok)

/-- The `colors` section application of `from_dict`: a JSON list becomes a
tuple before assignment, `tuple(v) if isinstance(v, list) else v`. -/
def applyColors (c : DefaultConfig) (v : Value) : DefaultConfig × Bool :=
  match applySection ColorConfig.hasattr ColorConfig.setattr
      (fun x => match x with | Value.vlist l => Value.vtup l | y => y)
      c.colors v with
  | (a, ok) => ({ c with colors := a }, ok)

/-- Whether a Python value may be a dict key: strings, numbers, booleans
and None are hashable; lists and dicts raise TypeError.  A tuple is
hashable iff its components are, but `json.load` never yields a tuple
(only str, number, bool, null, list, dict), so the conservative `false`
here is unreachable from any loadable document. -/
def hashableKey : Value → Bool
  | Value.vstr _ => true
  | Value.vnum _ => true
  | Value.vbool _ => true
  | Value.vnull => true
  | Value.vtup _ => false
  | Value.vlist _ => false
  | Value.vobj _ => false

/-- Whether one element of a non-dict `dict.update` argument is accepted:
it must be iterable with exactly two items (else TypeError/ValueError)
and its first item must be hashable.  A two-item list or tuple is the
pair itself; a two-character string gives its two characters; a two-entry
dict gives its two keys. -/
def elementPairOk : Value → Bool
  | Value.vlist [k, _] => hashableKey k
  | Value.vtup [k, _] => hashableKey k
  | Value.vstr s => s.length == 2
  | Value.vobj kvs => kvs.length == 2
  | _ => false

/-- Insert one accepted `dict.update` element into the custom dict.
Pairs whose key is a string land in the dict; a two-character string
"kv" sets d["k"] = "v"; a two-entry dict gives (first key, second key).
Hashable non-string keys (numbers, booleans, None, reachable only through
a pair-list custom section) can never collide with a string key and are
never read back by any modelled operation (`set` writes only string
keys), so `custom` models the string-keyed portion of `_custom` and such
pairs are dropped from it. -/
def insertElement (acc : List (String × Value)) (e : Value) : List (String × Value) :=
  match e with
  | Value.vlist [k, v] =>
      match k with
      | Value.vstr s => dictInsert acc s v
      | _ => acc
  | Value.vtup [k, v] =>
      match k with
      | Value.vstr s => dictInsert acc s v
      | _ => acc
  | Value.vstr s =>
      match s.data with
      | [c1, c2] => dictInsert acc (String.mk [c1]) (Value.vstr (String.mk [c2]))
      | _ => acc
  | Value.vobj kvs =>
      match kvs with
      | [(k1, _), (k2, _)] => dictInsert acc k1 (Value.vstr k2)
      | _ => acc
  | _ => acc

/-- `dict.update` with a non-dict iterable argument processes its elements
left to right and raises at the first invalid element, keeping the pairs
already inserted — exactly as CPython's merge-from-sequence does. -/
def updateSeq (acc : List (String × Value)) : List Value → List (String × Value) × Bool
  | [] => (acc, true)
  | e :: es =>
      if elementPairOk e then updateSeq (insertElement acc e) es
      else (acc, false)

/-- The `custom` section application of `from_dict`:
`self._custom.update(data['custom'])`.  Python's `dict.update` accepts a
dict (merged key by key), any iterable of key-value pairs (including the
empty list), and the empty string (no elements); it raises on numbers,
booleans, None (not iterable), non-empty strings (their one-character
elements are not pairs), and iterables with an invalid element — keeping
the pairs inserted before that element. -/
def applyCustom (c : DefaultConfig) (v : Value) : DefaultConfig × Bool :=
  match v with
  | Value.vobj kvs =>
      ({ c with custom := kvs.foldl (fun acc kv => dictInsert acc kv.1 kv.2) c.custom }, true)
  | Value.vlist l =>
      ({ c with custom := (updateSeq c.custom l).1 }, (updateSeq c.custom l).2)
  | Value.vtup l =>
      ({ c with custom := (updateSeq c.custom l).1 }, (updateSeq c.custom l).2)
  | Value.vstr s => (c, s.isEmpty)
  | _ => (c, false)

/-- One `if section in data:` block of `from_dict`, threading the partial
configuration and the no-exception-so-far flag: once a section raised,
later sections are not reached.  A raising fixed section leaves the
configuration exactly as before that section (its `.items()` fails
before any assignment); a raising custom sequence keeps the pairs
inserted before the invalid element. -/
def stepSection (data : List (String × Value)) (key : String)
    (applyF : DefaultConfig → Value → DefaultConfig × Bool)
    (st : DefaultConfig × Bool) : DefaultConfig × Bool :=
  match st with
  | (c, false) => (c, false)
  | (c, true) =>
      match data.lookup key with
      | none => (c, true)
      | some v => applyF c v

/-- `DefaultConfig.from_dict(data)`: sections applied in source order;
the returned Bool records whether the whole application ran without an
exception (the source lets the exception escape to `load_from_file`). -/
def DefaultConfig.from_dict (c : DefaultConfig) (data : List (String × Value)) :
    DefaultConfig × Bool :=
  stepSection data "custom" applyCustom
    (stepSection data "colors" applyColors
      (stepSection data "window" applyWindow
        (stepSection data "render" applyRender
          (stepSection data "analyzer" applyAnalyzer
            (stepSection data "detector" applyDetector (c, true))))))

/-- `DefaultConfig.load_from_file(path)`: `doc = none` models a missing
file, an unreadable file or malformed JSON — nothing is applied and the
call returns False.  With a parsed document the mutations of `from_dict`
survive even when it raises, because `from_dict` mutates `self` in place
and `load_from_file` merely catches the exception and returns False. -/
def DefaultConfig.load_from_file (c : DefaultConfig)
    (doc : Option (List (String × Value))) : Bool × DefaultConfig :=
  match doc with
  | none => (false, c)
  | some data =>
      match c.from_dict data with
      | (c2, true) => (true, c2)
      | (c2, false) => (false, c2)

/-- Whether a possibly-present section value is a dict. -/
def shapedAt (data : List (String × Value)) (key : String) : Bool :=
  match data.lookup key with
  | none => true
  | some v => v.isObj

/-- Whether `dict.update` accepts a value without raising: a dict, an
iterable every element of which is an acceptable key-value pair (so also
the empty list), or the empty string. -/
def customOk : Value → Bool
  | Value.vobj _ => true
  | Value.vlist l => l.all elementPairOk
  | Value.vtup l => l.all elementPairOk
  | Value.vstr s => s.isEmpty
  | _ => false

/-- Whether a possibly-present custom section is acceptable to
`dict.update`. -/
def customShapedAt (data : List (String × Value)) : Bool :=
  match data.lookup "custom" with
  | none => true
  | some v => customOk v

/-- A document whose five fixed sections, when present, are dicts and
whose custom section, when present, is acceptable to `dict.update`: the
documents `from_dict` applies without raising. -/
def wellShaped (data : List (String × Value)) : Bool :=
  shapedAt data "detector" && shapedAt data "analyzer" && shapedAt data "render" &&
  shapedAt data "window" && shapedAt data "colors" && customShapedAt data

theorem shapedAt_spec (data : List (String × Value)) (key : String)
    (h : shapedAt data key = true) :
    ∀ v, data.lookup key = some v → ∃ kvs, v = Value.vobj kvs := by
  intro v hv
  unfold shapedAt at h
  rw [hv] at h
  cases v with
  | vobj kvs => exact ⟨kvs, rfl⟩
  | vstr s => cases h
  | vnum q => cases h
  | vbool b => cases h
  | vlist l => cases h
  | vtup l => cases h
  | vnull => cases h

theorem stepSection_true_of_ok {data : List (String × Value)} {key : String}
    {applyF : DefaultConfig → Value → DefaultConfig × Bool}
    {st : DefaultConfig × Bool}
    (hok : ∀ c v, data.lookup key = some v → (applyF c v).2 = true)
    (hst : st.2 = true) :
    (stepSection data key applyF st).2 = true := by
  obtain ⟨c, b⟩ := st
  cases b with
  | false => cases hst
  | true =>
    simp only [stepSection]
    cases hd : data.lookup key with
    | none => rfl
    | some v => exact hok c v hd

/-- A processed update sequence with only acceptable elements raises
nothing. -/
theorem updateSeq_all_ok (l : List Value) (acc : List (String × Value))
    (h : l.all elementPairOk = true) : (updateSeq acc l).2 = true := by
  induction l generalizing acc with
  | nil => rfl
  | cons e es ih =>
    simp only [List.all_cons, Bool.and_eq_true] at h
    simp [updateSeq, h.1, ih _ h.2]

theorem from_dict_snd_true (c : DefaultConfig) (data : List (String × Value))
    (h : wellShaped data = true) : (c.from_dict data).2 = true := by
  unfold wellShaped at h
  simp only [Bool.and_eq_true] at h
  obtain ⟨⟨⟨⟨⟨h1, h2⟩, h3⟩, h4⟩, h5⟩, h6⟩ := h
  unfold DefaultConfig.from_dict
  refine stepSection_true_of_ok ?_ (stepSection_true_of_ok ?_ (stepSection_true_of_ok ?_
    (stepSection_true_of_ok ?_ (stepSection_true_of_ok ?_
      (stepSection_true_of_ok ?_ rfl)))))
  · intro c2 v hv
    unfold customShapedAt at h6
    rw [hv] at h6
    cases v with
    | vobj kvs => rfl
    | vlist l => simpa [applyCustom] using updateSeq_all_ok l c2.custom h6
    | vtup l => simpa [applyCustom] using updateSeq_all_ok l c2.custom h6
    | vstr s => simpa [applyCustom] using h6
    | vnum q => cases h6
    | vbool b => cases h6
    | vnull => cases h6
  · intro c2 v hv
    obtain ⟨kvs, rfl⟩ := shapedAt_spec data "colors" h5 v hv
    rfl
  · intro c2 v hv
    obtain ⟨kvs, rfl⟩ := shapedAt_spec data "window" h4 v hv
    rfl
  · intro c2 v hv
    obtain ⟨kvs, rfl⟩ := shapedAt_spec data "render" h3 v hv
    rfl
  · intro c2 v hv
    obtain ⟨kvs, rfl⟩ := shapedAt_spec data "analyzer" h2 v hv
    rfl
  · intro c2 v hv
    obtain ⟨kvs, rfl⟩ := shapedAt_spec data "detector" h1 v hv
    rfl

/-- The document of the C4 counterexample: a well-formed detector section
followed by a malformed (non-dict) analyzer section. -/
def badDoc : List (String × Value) :=
  [("detector", Value.vobj [("model_path", Value.vstr "other_model.task")]),
   ("analyzer", Value.vnum 3)]

/-- C4 counterexample: loading badDoc fails (load_from_file returns false
— the analyzer section's `.items()` raises) yet the in-memory
configuration is not as it was before the call: the detector section had
already been applied and `detector.model_path` keeps the new value. -/
theorem load_from_file_partial_mutation :
    (DefaultConfig.load_from_file DefaultConfig.mkDefault (some badDoc)).1 = false ∧
    (DefaultConfig.load_from_file DefaultConfig.mkDefault (some badDoc)).2
      ≠ DefaultConfig.mkDefault := by
  constructor
  · rfl
  · intro h
    have h1 : (DefaultConfig.load_from_file DefaultConfig.mkDefault (some badDoc)).2.detector.model_path
        = Value.vstr "other_model.task" := rfl
    rw [h] at h1
    have h2 : ("pose_landmarker.task" : String) = "other_model.task" := Value.vstr.inj h1
    simp at h2

/-- C4 (amended): a load that fails before the document is applied
(missing file, unreadable file, malformed JSON) returns false with the
configuration exactly as before; a parsed document that makes from_dict
raise — a fixed section whose value is not a dict, or a custom value
`dict.update` rejects — returns false with exactly the mutations made
before raising (sections applied before the failing one keep their new
values, as do custom pairs inserted before an invalid element); a
document whose fixed sections are dicts and whose custom section
`dict.update` accepts (a dict, an iterable of key-value pairs including
the empty list, or the empty string) loads with result true. -/
theorem load_from_file_spec :
    (∀ c : DefaultConfig, DefaultConfig.load_from_file c none = (false, c)) ∧
    (∀ (c : DefaultConfig) (data : List (String × Value)),
      (DefaultConfig.from_dict c data).2 = false →
        DefaultConfig.load_from_file c (some data) =
          (false, (DefaultConfig.from_dict c data).1)) ∧
    (∀ (c : DefaultConfig) (data : List (String × Value)),
      wellShaped data = true →
        DefaultConfig.load_from_file c (some data) =
          (true, (DefaultConfig.from_dict c data).1)) := by
  refine ⟨fun c => rfl, ?_, ?_⟩
  · intro c data hfd
    rcases hd : DefaultConfig.from_dict c data with ⟨c2, b⟩
    rw [hd] at hfd
    simp at hfd
    subst hfd
    simp only [DefaultConfig.load_from_file]
    rw [hd]
  · intro c data hws
    have hb := from_dict_snd_true c data hws
    rcases hd : DefaultConfig.from_dict c data with ⟨c2, b⟩
    rw [hd] at hb
    simp at hb
    subst hb
    simp only [DefaultConfig.load_from_file]
    rw [hd]

/-- Witness for C4's amended theorem: a missing/unreadable/malformed file
leaves the default configuration untouched; loading badDoc returns false
with exactly from_dict's partial state; and the valid document with an
empty-list custom section — accepted by `dict.update` — loads true. -/
theorem load_from_file_spec_witness :
    DefaultConfig.load_from_file DefaultConfig.mkDefault none
        = (false, DefaultConfig.mkDefault) ∧
    DefaultConfig.load_from_file DefaultConfig.mkDefault (some badDoc)
        = (false, (DefaultConfig.from_dict DefaultConfig.mkDefault badDoc).1) ∧
    DefaultConfig.load_from_file DefaultConfig.mkDefault
        (some [("custom", Value.vlist [])])
      = (true,
         (DefaultConfig.from_dict DefaultConfig.mkDefault
            [("custom", Value.vlist [])]).1) :=
  ⟨load_from_file_spec.1 DefaultConfig.mkDefault,
   load_from_file_spec.2.1 DefaultConfig.mkDefault badDoc (by rfl),
   load_from_file_spec.2.2 DefaultConfig.mkDefault [("custom", Value.vlist [])] (by rfl)⟩

/-- The state of a `MediaPipeHeavyDetector` that matters to
initialization: the acceleration flag and whether the landmarker object
has been created (`_detector`). -/
structure HeavyDetector where
  use_gpu : Bool
  detector : Option Unit

/-- `MediaPipeHeavyDetector.initialize(self)`.  `createOk d` abstracts
whether downloading the model and building the landmarker with delegate
GPU (`d = true`) or CPU succeeds; a raised exception is `false`.  On a
failure in GPU mode the source sets `_use_gpu = False` and calls itself
once more; that self-call is unrolled here (it can recurse at most once,
since `_use_gpu` is false on reentry).  The method returns a success
Bool and never raises. -/
def heavyDetectorInit (createOk : Bool → Bool) (d : HeavyDetector) : Bool × HeavyDetector :=
  match d.use_gpu with
  | true =>
      if createOk true then (true, { d with detector := some () })
      else
        let d2 : HeavyDetector := { d with use_gpu := false }
        if createOk false then (true, { d2 with detector := some () })
        else (false, d2)
  | false =>
      if createOk false then (true, { d with detector := some () })
      else (false, d)

/-- The factory `Deps._create_lazy_instance` builds for the detector
category with this detector class, run on first `get`: a missing class
(`registry.get` returning None) raises ValueError; otherwise the instance
is constructed (GPU enabled by default) and its initialization hook is
invoked — whose returned Bool the factory discards. -/
def detectorFactory (clsFound : Bool) (createOk : Bool → Bool) :
    Except String HeavyDetector :=
  if clsFound then
    Except.ok (heavyDetectorInit createOk { use_gpu := true, detector := none }).2
  else Except.error "component not found"

/-- C5 counterexample: when model creation fails in both modes, the
container's get does NOT fail — the factory returns the constructed but
uninitialized instance (detector field still absent, GPU flag degraded),
surfacing no failure to the caller. -/
theorem detector_factory_counterexample :
    detectorFactory true (fun _ => false)
      = Except.ok { use_gpu := false, detector := none } := rfl

/-- C5 (amended): the one automatic degraded-mode retry lives inside the
detector's initialization hook: a GPU-mode failure is retried exactly once
with GPU disabled; if the retry succeeds the instance is initialized; if
the retry also fails the hook returns false and the container's get still
returns the constructed, uninitialized instance rather than failing; only
a missing component class makes the get call fail, with no retry. -/
theorem detector_factory_spec (createOk : Bool → Bool) :
    (detectorFactory false createOk = Except.error "component not found") ∧
    (createOk true = true →
      detectorFactory true createOk
        = Except.ok { use_gpu := true, detector := some () }) ∧
    (createOk true = false → createOk false = true →
      detectorFactory true createOk
        = Except.ok { use_gpu := false, detector := some () }) ∧
    (createOk true = false → createOk false = false →
      detectorFactory true createOk
        = Except.ok { use_gpu := false, detector := none }) := by
  refine ⟨rfl, ?_, ?_, ?_⟩
  · intro h
    simp [detectorFactory, heavyDetectorInit, h]
  · intro h1 h2
    simp [detectorFactory, heavyDetectorInit, h1, h2]
  · intro h1 h2
    simp [detectorFactory, heavyDetectorInit, h1, h2]

/-- Witness for C5's amended theorem at a concrete environment where GPU
creation fails and CPU creation succeeds: one degraded retry, instance
initialized with the GPU flag turned off. -/
theorem detector_factory_spec_witness :
    detectorFactory true (fun b => !b)
      = Except.ok { use_gpu := false, detector := some () } :=
  (detector_factory_spec (fun b => !b)).2.2.1 rfl rfl

/-- One `LazyInstance` wrapper: the held instance (by construction id) and
its `threading.Lock`. -/
structure Cell where
  inst : Option Nat
  locked : Bool
  deriving DecidableEq

/-- Program counter of one thread running `Deps.get_detector` for an
already-resolved (category, name) pair, followed by `LazyInstance.get`.
Each label is one atomic region between possible thread switches. -/
inductive Pc where
  | checkDict   -- if key not in self._instances
  | assignDict  -- self._instances[key] = LazyInstance(factory)
  | readDict    -- self._instances[key] at the return statement
  | fastCheck   -- if self._instance is None  (unlocked check)
  | acquire     -- with self._lock  (blocks while held)
  | lockedCheck -- re-check; call the factory when still None
  | release     -- leave the with-block, read and return self._instance
  | done
  deriving DecidableEq

/-- Local state of one thread: program counter, the LazyInstance object
its local expression holds (identified by the thread that allocated it),
and the returned instance id. -/
structure ThreadState where
  pc : Pc
  ref : Option Bool
  res : Option Nat
  deriving DecidableEq

/-- Shared and per-thread state of two threads concurrently making their
first `get_detector` call for the same resolved key: the dict entry
`self._instances[key]` (naming which thread's LazyInstance it holds), the
LazyInstance each thread may have allocated, and the number of factory
invocations so far (each invocation yields a fresh instance id). -/
structure SysState where
  dict : Option Bool
  cellT : Option Cell
  cellF : Option Cell
  fcount : Nat
  thT : ThreadState
  thF : ThreadState
  deriving DecidableEq

def getCell (s : SysState) (who : Bool) : Option Cell :=
  if who then s.cellT else s.cellF

def setCell (s : SysState) (who : Bool) (c : Cell) : SysState :=
  if who then { s with cellT := some c } else { s with cellF := some c }

def getTh (s : SysState) (t : Bool) : ThreadState :=
  if t then s.thT else s.thF

def setTh (s : SysState) (t : Bool) (th : ThreadState) : SysState :=
  if t then { s with thT := th } else { s with thF := th }

/-- One atomic step of thread `t` (CPython interleaves at bytecode
granularity, so a switch may occur between the dict membership test and
the dict assignment).  A blocked lock acquisition or a finished thread
leaves the state unchanged. -/
def step (s : SysState) (t : Bool) : SysState :=
  let th := getTh s t
  match th.pc with
  | Pc.checkDict =>
      if s.dict.isSome then setTh s t { th with pc := Pc.readDict }
      else setTh s t { th with pc := Pc.assignDict }
  | Pc.assignDict =>
      let s1 := setCell s t { inst := none, locked := false }
      let s2 := { s1 with dict := some t }
      setTh s2 t { th with pc := Pc.readDict }
  | Pc.readDict =>
      setTh s t { th with ref := s.dict, pc := Pc.fastCheck }
  | Pc.fastCheck =>
      match th.ref.bind (getCell s) with
      | some c =>
          if c.inst.isSome then setTh s t { th with res := c.inst, pc := Pc.done }
          else setTh s t { th with pc := Pc.acquire }
      | none => s
  | Pc.acquire =>
      match th.ref with
      | some who =>
          match getCell s who with
          | some c =>
              if c.locked then s
              else setTh (setCell s who { c with locked := true }) t
                { th with pc := Pc.lockedCheck }
          | none => s
      | none => s
  | Pc.lockedCheck =>
      match th.ref with
      | some who =>
          match getCell s who with
          | some c =>
              match c.inst with
              | some _ => setTh s t { th with pc := Pc.release }
              | none =>
                  let s1 := setCell s who { c with inst := some s.fcount }
                  let s2 := { s1 with fcount := s.fcount + 1 }
                  setTh s2 t { th with pc := Pc.release }
          | none => s
      | none => s
  | Pc.release =>
      match th.ref with
      | some who =>
          match getCell s who with
          | some c =>
              setTh (setCell s who { c with locked := false }) t
                { th with res := c.inst, pc := Pc.done }
          | none => s
      | none => s
  | Pc.done => s

/-- Run a schedule (the sequence of thread ids granted the next atomic
step). -/
def run (sched : List Bool) (s : SysState) : SysState :=
  sched.foldl step s

/-- Both threads about to make the first `get_detector` call, nothing
constructed yet. -/
def initState : SysState :=
  { dict := none, cellT := none, cellF := none, fcount := 0,
    thT := { pc := Pc.checkDict, ref := none, res := none },
    thF := { pc := Pc.checkDict, ref := none, res := none } }

/-- The interleaving that defeats the container: thread T passes the
`key not in self._instances` test, then thread F runs its whole call
(allocating its own LazyInstance, publishing it, constructing instance 0),
then T resumes, overwrites the dict entry with its own LazyInstance and
constructs instance 1. -/
def badSchedule : List Bool :=
  [true, false, false, false, false, false, false, false,
   true, true, true, true, true, true]

/-- C9: evaluating the model on badSchedule: both threads finish their
first `get_detector` call, the factory has been invoked twice, and the
callers observe different instances (ids 1 and 0) — the unlocked
check-then-insert on the instance dict defeats the at-most-once
construction that `LazyInstance`'s double-checked locking provides. -/
theorem get_detector_race :
    (run badSchedule initState).thT.pc = Pc.done ∧
    (run badSchedule initState).thF.pc = Pc.done ∧
    (run badSchedule initState).fcount = 2 ∧
    (run badSchedule initState).thT.res = some 1 ∧
    (run badSchedule initState).thF.res = some 0 := by
  refine ⟨rfl, rfl, rfl, rfl, rfl⟩

/-- Sanity check of the model: when the second thread only reaches its
dict check after the first has published its LazyInstance, the factory
runs once and both callers observe the same instance, as the
double-checked lock of `LazyInstance.get` intends. -/
theorem get_detector_sequential :
    (run [true, true, true, true, true, true, true, false, false, false]
        initState).fcount = 1 ∧
    (run [true, true, true, true, true, true, true, false, false, false]
        initState).thT.res = some 0 ∧
    (run [true, true, true, true, true, true, true, false, false, false]
        initState).thF.res = some 0 := by
  refine ⟨rfl, rfl, rfl⟩

end PostureCorrection
